import Mathlib

/-!
Verification of the teach-cert-pro acquisition-and-inference pipeline.

The definitions below are a shallow embedding of the Python sources:
  - `teacher_cert_objectives_db/scripts/inference.py`  (InferenceEngine)
  - `teacher_cert_objectives_db/scripts/validation.py` (ValidationEngine)
  - `teacher_cert_objectives_db/scripts/discovery.py`  (DiscoveryEngine dedup)
  - `teacher_cert_objectives_db/scripts/main.py`       (ObjectivesOrchestrator)
  - `teacher_cert_pdf_validator/src/validator.py`      (PDFValidator)

Python floats are modelled as rationals; the confidence arithmetic of the
source only uses literals, additions and `min`/comparisons where the float
and rational computations agree on every value reachable in the claims.
Dictionaries are modelled as structures whose optional fields are `Option`,
with Python truthiness made explicit (absent or empty string is falsy).
-/

namespace TeachCert

attribute [local semireducible] Rat.mul Rat.add

/-- Check that `hay` begins with `needle` (on character lists). -/
def startsList : List Char → List Char → Bool
  | [], _ => true
  | _ :: _, [] => false
  | a :: as, b :: bs => a == b && startsList as bs

/-- Check that `needle` occurs as a contiguous run inside `hay`. -/
def containsList (needle : List Char) : List Char → Bool
  | [] => startsList needle []
  | b :: bs => startsList needle (b :: bs) || containsList needle bs

/-- Python `needle in hay` substring test on strings. -/
def strContains (hay needle : String) : Bool :=
  containsList needle.toList hay.toList

/-- Python `s.lower()`, over the character list. -/
def strLower (s : String) : String :=
  ⟨s.data.map Char.toLower⟩

/-- Python `s.startswith(pre)` (also used for the byte-string signature
check, bytes being modelled as strings). -/
def startsWithStr (s pre : String) : Bool :=
  startsList pre.data s.data

/-- Python `s.endswith(suf)`. -/
def endsWithStr (s suf : String) : Bool :=
  startsList suf.data.reverse s.data.reverse

/-- The first `n` characters of a string. -/
def strTake (s : String) (n : Nat) : String :=
  ⟨s.data.take n⟩

/-- Python two-argument `min(a, b)` on numbers: the first argument on
ties. -/
def ratMin (a b : ℚ) : ℚ := if a ≤ b then a else b

/-- Python truthiness of an optional string: `None` and `""` are falsy. -/
def optTruthy (s : Option String) : Bool :=
  match s with
  | none => false
  | some t => t ≠ ""

/-- Count of maximal non-whitespace runs; the flag says whether the previous
character was part of a word. -/
def countWordsAux : Bool → List Char → Nat
  | _, [] => 0
  | inWord, c :: cs =>
      if c.isWhitespace then countWordsAux false cs
      else (if inWord then 0 else 1) + countWordsAux true cs

/-- Word count of a string, as computed by `len(text.split())` (Python
`split()` with no argument splits on whitespace runs, dropping empties). -/
def wordCount (s : String) : Nat :=
  countWordsAux false s.data

/-- One objective record, as the dictionaries built by the inference and
discovery engines (`inference.py`, `discovery.py`).  `rationale` is a plain
string with `""` standing for an absent/empty rationale, matching the falsy
test `not objective_data.get('rationale')` in the source. -/
structure Objective where
  objective_index : Nat
  objective_text : String
  evidence_excerpt : Option String
  evidence_url : Option String
  is_inferred : Bool
  confidence : ℚ
  rationale : String
  validation_status : String
  deriving DecidableEq, Repr

/-- The `test_info` dictionary passed to `InferenceEngine.infer_objectives`:
`test_info.get('test_name', '')` etc. are modelled with `Option.getD`. -/
structure TestInfo where
  test_name : Option String
  subject_area : Option String
  test_system : Option String
  official_source_url : Option String
  deriving DecidableEq, Repr

/-! ### InferenceEngine (`inference.py`) -/

/-- `self.intasc_standards` from `InferenceEngine.__init__`. -/
def intascStandards : List String :=
  [ "Learner Development: Understands how learners grow and develop",
    "Learning Differences: Uses understanding of individual differences and diverse cultures",
    "Learning Environments: Works with others to create environments that support learning",
    "Content Knowledge: Understands the central concepts and tools of inquiry",
    "Application of Content: Connects concepts using differing perspectives",
    "Assessment: Understands and uses multiple methods of assessment",
    "Planning for Instruction: Plans instruction that supports every student",
    "Instructional Strategies: Understands and uses a variety of instructional strategies",
    "Professional Learning: Engages in ongoing professional learning",
    "Leadership and Collaboration: Seeks leadership roles and collaborates" ]

/-- `self.subject_templates` lookup: `subject in self.subject_templates`
and `self.subject_templates[subject]` in one function. -/
def subjectTemplates (subject : String) : Option (List String) :=
  if subject = "Elementary Education" then some
    [ "Demonstrate knowledge of child development and learning theory",
      "Apply effective instructional strategies for diverse learners",
      "Integrate literacy instruction across content areas",
      "Use formative and summative assessment to guide instruction",
      "Create inclusive and culturally responsive classroom environments",
      "Understand and teach mathematics concepts and problem-solving",
      "Implement science inquiry and investigation methods",
      "Teach social studies content and citizenship concepts",
      "Develop students' critical thinking and communication skills" ]
  else if subject = "Mathematics" then some
    [ "Demonstrate deep understanding of mathematical concepts and procedures",
      "Apply mathematical reasoning and problem-solving strategies",
      "Connect mathematics to real-world applications and other disciplines",
      "Use technology to enhance mathematical learning",
      "Assess student understanding of mathematical concepts",
      "Differentiate instruction for diverse mathematical learners",
      "Teach number sense, operations, and algebraic thinking",
      "Develop geometric and spatial reasoning in students",
      "Apply statistical and probabilistic reasoning" ]
  else if subject = "English Language Arts" then some
    [ "Demonstrate knowledge of reading processes and comprehension strategies",
      "Teach writing processes and composition across genres",
      "Develop students' speaking and listening skills",
      "Analyze and teach literary and informational texts",
      "Apply linguistics and language development principles",
      "Integrate technology and media literacy instruction",
      "Assess and support literacy development",
      "Differentiate instruction for diverse language learners" ]
  else if subject = "Science" then some
    [ "Apply scientific inquiry and investigation methods",
      "Demonstrate content knowledge in physical sciences",
      "Demonstrate content knowledge in life sciences",
      "Demonstrate content knowledge in earth and space sciences",
      "Use technology and laboratory equipment safely and effectively",
      "Connect science concepts across disciplines",
      "Develop students' scientific reasoning and critical thinking",
      "Assess student understanding of scientific concepts" ]
  else if subject = "Social Studies" then some
    [ "Teach historical thinking and chronological reasoning",
      "Develop students' geographic literacy and spatial thinking",
      "Apply civic knowledge and promote civic engagement",
      "Teach economic concepts and financial literacy",
      "Integrate primary and secondary source analysis",
      "Promote cultural awareness and global perspectives",
      "Use inquiry-based approaches to social studies instruction" ]
  else if subject = "Special Education" then some
    [ "Understand characteristics of students with disabilities",
      "Apply individualized education program (IEP) development and implementation",
      "Use evidence-based instructional strategies for diverse learners",
      "Implement positive behavior supports and interventions",
      "Collaborate with families, educators, and service providers",
      "Apply assessment for eligibility, progress monitoring, and instruction",
      "Ensure access to general education curriculum",
      "Understand legal and ethical responsibilities in special education" ]
  else none

/-- `InferenceEngine._get_generic_test_objectives`. -/
def getGenericTestObjectives (test_system test_name : String) : List String :=
  let generic :=
    [ "Demonstrate content knowledge in " ++ test_name,
      "Apply pedagogical principles and instructional strategies",
      "Assess and evaluate student learning and progress",
      "Create inclusive and equitable learning environments",
      "Integrate technology and resources to enhance learning",
      "Collaborate with colleagues, families, and communities",
      "Engage in professional growth and ethical practice" ]
  if strContains (strLower test_system) "praxis" then
    generic ++ ["Apply Educational Testing Service (ETS) standards for teacher readiness"]
  else if strContains (strLower test_system) "nes" then
    generic ++ ["Meet state-specific educator preparation standards"]
  else
    generic

/-- The per-strategy loop body shared by all four branches of
`infer_objectives`: enumerate the chosen template texts into objective
dictionaries with the branch's confidence, rationale and evidence URL. -/
def mkInferredObjectives (texts : List String) (confidence : ℚ)
    (rationale : String) (evidence_url : Option String) : List Objective :=
  texts.enum.map (fun p =>
    { objective_index := p.1
      objective_text := p.2
      evidence_excerpt := none
      evidence_url := evidence_url
      is_inferred := true
      confidence := confidence
      rationale := rationale
      validation_status := "inferred" })

/-- The strategy-1 guard `if subject and subject in self.subject_templates`
together with the lookup `self.subject_templates[subject]`. -/
def selectedTemplate (ti : TestInfo) : Option (List String) :=
  let subject := ti.subject_area.getD ""
  if subject = "" then none else subjectTemplates subject

/-- The `inferred` list `InferenceEngine.infer_objectives` builds before the
final confidence-threshold filter (strategies 1-4 in priority order). -/
def inferCandidates (ti : TestInfo) : List Objective :=
  let test_name := ti.test_name.getD ""
  let subject := ti.subject_area.getD ""
  let test_system := ti.test_system.getD ""
  match selectedTemplate ti with
  | some objectives =>
      mkInferredObjectives objectives (mkRat 3 4)
        ("Inferred from standard " ++ subject ++
          " teacher certification competency frameworks") none
  | none =>
      if strContains (strLower test_name) "elementary" ||
          strContains (strLower test_name) "general" then
        mkInferredObjectives intascStandards (mkRat 7 10)
          "Inferred from InTASC Model Core Teaching Standards, applicable to general teaching licenses"
          (some "https://ccsso.org/intasc")
      else if test_system ≠ "" then
        mkInferredObjectives (getGenericTestObjectives test_system test_name) (mkRat 3 5)
          ("Inferred from typical " ++ test_system ++
            " test structure and common teacher competencies") none
      else
        mkInferredObjectives (intascStandards.take 5) (mkRat 2 5)
          "Minimal inference based on general teaching standards; official objectives not found"
          (some "https://ccsso.org/intasc")

/-- `InferenceEngine.infer_objectives`: strategy selection followed by the
inclusive confidence-threshold filter. -/
def inferObjectives (ti : TestInfo) (confidence_threshold : ℚ) : List Objective :=
  (inferCandidates ti).filter (fun obj => confidence_threshold ≤ obj.confidence)

/-- The corroboration note `enhance_confidence` appends to a rationale. -/
def supportNote (n : Nat) : String :=
  " | Supported by " ++ toString n ++ " additional source(s)"

/-- The loop body of `InferenceEngine.enhance_confidence`: the source guard
is `if obj.get('is_inferred') and supporting_evidence:`, the boost is
`min(len(supporting_evidence) * 0.1, 0.3)` clamped so the new confidence is
at most 1.0, and the corroboration note is appended to the rationale. -/
def enhanceOne (supporting_evidence : List String) (obj : Objective) :
    Objective :=
  if obj.is_inferred ∧ supporting_evidence ≠ [] then
    let boost : ℚ := ratMin (supporting_evidence.length * mkRat 1 10) (mkRat 3 10)
    { obj with
      confidence := ratMin (obj.confidence + boost) 1
      rationale := obj.rationale ++ supportNote supporting_evidence.length }
  else obj

/-- `InferenceEngine.enhance_confidence`: boost inferred objectives when
supporting evidence is present. -/
def enhanceConfidence (objectives : List Objective)
    (supporting_evidence : List String) : List Objective :=
  objectives.map (enhanceOne supporting_evidence)

/-! ### ValidationEngine (`validation.py`) -/

/-- The fixed action-verb vocabulary of `ValidationEngine.validate_objective`. -/
def actionVerbs : List String :=
  [ "understand", "demonstrate", "apply", "analyze", "evaluate",
    "identify", "explain", "describe", "compare", "create",
    "develop", "design", "implement", "use", "integrate",
    "teach", "assess", "plan", "collaborate", "communicate" ]

/-- The fixed boilerplate-phrase list of `ValidationEngine.validate_objective`. -/
def boilerplatePhrases : List String :=
  [ "click here", "read more", "download", "next page",
    "table of contents", "copyright", "all rights reserved" ]

/-- `any(verb in obj_text.lower() for verb in action_verbs)`. -/
def hasActionVerb (text : String) : Bool :=
  actionVerbs.any (fun verb => strContains (strLower text) verb)

/-- `any(phrase in obj_text.lower() for phrase in boilerplate_phrases)`. -/
def hasBoilerplate (text : String) : Bool :=
  boilerplatePhrases.any (fun phrase => strContains (strLower text) phrase)

/-- The minimum-length issue of `validate_objective` (first check). -/
def shortIssue (obj : Objective) : List String :=
  if wordCount obj.objective_text < 6 then
    ["Objective too short (" ++ toString (wordCount obj.objective_text) ++
      " words, minimum 6)"]
  else []

/-- The action-verb issue of `validate_objective` (second check). -/
def verbIssue (obj : Objective) : List String :=
  if hasActionVerb obj.objective_text then [] else ["No clear action verb found"]

/-- The boilerplate issue of `validate_objective` (third check). -/
def boilerIssue (obj : Objective) : List String :=
  if hasBoilerplate obj.objective_text then ["Contains boilerplate/navigation text"]
  else []

/-- The inferred-only issues of `validate_objective` (confidence range and
rationale presence, in source order). -/
def inferredIssue (obj : Objective) : List String :=
  if obj.is_inferred then
    (if ¬ (0 ≤ obj.confidence ∧ obj.confidence ≤ 1) then
      ["Invalid confidence score: " ++ toString obj.confidence]
    else []) ++
    (if obj.rationale = "" then ["Inferred objective missing rationale"] else [])
  else []

/-- `ValidationEngine.validate_objective`: quality gate returning
`(is_valid, issues)` with the issue strings accumulated in source order. -/
def validateObjective (obj : Objective) : Bool × List String :=
  let issues :=
    shortIssue obj ++ verbIssue obj ++ boilerIssue obj ++ inferredIssue obj
  (issues.isEmpty, issues)

/-- `ValidationEngine.assign_validation_status`. -/
def assignValidationStatus (obj : Objective) : String :=
  if obj.is_inferred then
    if (mkRat 7 10) ≤ obj.confidence then "partial" else "inferred"
  else
    if optTruthy obj.evidence_url then "verified" else "partial"

/-! ### DiscoveryEngine deduplication (`discovery.py`) -/

/-- One test candidate dictionary as assembled by
`DiscoveryEngine._extract_tests_from_url`; fields read with
`test.get(field, '')` during deduplication are optional. -/
structure TestCandidate where
  test_system : Option String
  test_name : Option String
  test_code : Option String
  official_source_url : Option String
  source_content : Option String
  provider : Option String
  deriving DecidableEq, Repr

/-- The deduplication key `(test.get('test_system',''), test.get('test_name',''),
test.get('test_code',''))` from `DiscoveryEngine._deduplicate_tests`. -/
def dedupKey (t : TestCandidate) : String × String × String :=
  (t.test_system.getD "", t.test_name.getD "", t.test_code.getD "")

/-- The `seen`-set loop of `DiscoveryEngine._deduplicate_tests`. -/
def dedupAux (seen : List (String × String × String)) :
    List TestCandidate → List TestCandidate
  | [] => []
  | t :: rest =>
      if dedupKey t ∈ seen then dedupAux seen rest
      else t :: dedupAux (dedupKey t :: seen) rest

/-- `DiscoveryEngine._deduplicate_tests`. -/
def deduplicateTests (tests : List TestCandidate) : List TestCandidate :=
  dedupAux [] tests

/-! ### PDFValidator (`teacher_cert_pdf_validator/src/validator.py`)

The network is modelled by a deterministic exchange the validator observes:
the response to the initial `HEAD` (redirects followed) and the response to
a `GET` of the same URL (used both as the status fallback and as the
streamed body source; the source issues the `GET` again before reading the
signature chunk, so the body and final URL seen by the signature step are the
`GET` response's).  Timeout/connection exceptions take a separate early-return
path in the source and are outside this model, which covers reachable URLs. -/

/-- One HTTP response as observed by `PDFValidator.is_valid_pdf`. -/
structure HttpResponse where
  status : Nat
  contentType : String
  finalUrl : String
  body : String
  deriving DecidableEq, Repr

/-- The deterministic network behaviour for one URL. -/
structure HttpEnv where
  head : HttpResponse
  get : HttpResponse
  deriving DecidableEq, Repr

/-- Split a character list at the first occurrence of `sep`, returning the
part before and the part after it, or `none` when `sep` does not occur. -/
def breakOn (sep : List Char) : List Char → Option (List Char × List Char)
  | [] => if sep = [] then some ([], []) else none
  | c :: cs =>
      if startsList sep (c :: cs) then some ([], (c :: cs).drop sep.length)
      else
        match breakOn sep cs with
        | some (pre, post) => some (c :: pre, post)
        | none => none

/-- Modelled from `urllib.parse.urlparse`: the guard
`if not parsed.scheme or not parsed.netloc` for ordinary
`scheme://netloc/...` URLs — a non-empty scheme before `"://"` and a
non-empty netloc (text after `"://"` up to the next `/`). -/
def urlWellFormed (url : String) : Bool :=
  match breakOn "://".data url.data with
  | some (scheme, rest) =>
      scheme ≠ [] && rest.takeWhile (fun c => c ≠ '/') ≠ []
  | none => false

/-- The response whose status/headers/URL the validator inspects: the `HEAD`
response, replaced by the `GET` response when `HEAD` is non-200. -/
def effectiveResponse (env : HttpEnv) : HttpResponse :=
  if env.head.status ≠ 200 then env.get else env.head

/-- `chunk = next(response.iter_content(chunk_size=8), None)` on the
re-issued `GET`: `none` when the body is empty. -/
def firstChunk (env : HttpEnv) : Option String :=
  if env.get.body = "" then none else some (strTake env.get.body 8)

/-- `PDFValidator.is_valid_pdf`, non-exception paths. -/
def isValidPdf (url : String) (env : HttpEnv) : Bool × String :=
  if ¬ urlWellFormed url then (false, "Invalid URL format")
  else
    let resp := effectiveResponse env
    if resp.status ≠ 200 then (false, "HTTP " ++ toString resp.status)
    else if strContains (strLower resp.contentType) "application/pdf" then
      (true, "Valid PDF (Content-Type)")
    else if endsWithStr (strLower url) ".pdf" || endsWithStr (strLower resp.finalUrl) ".pdf" then
      match firstChunk env with
      | some chunk =>
          if startsWithStr chunk "%PDF" then (true, "Valid PDF (signature check)")
          else (false, "File exists but not a PDF")
      | none =>
          if strContains (strLower env.get.finalUrl) ".pdf" then
            (true, "Valid PDF (URL extension)")
          else (false, "Not a PDF file")
    else if strContains (strLower resp.finalUrl) ".pdf" then
      (true, "Valid PDF (URL extension)")
    else (false, "Not a PDF file")

/-! ### Orchestrator (`main.py`)

`ObjectivesOrchestrator.process_state` is embedded with its external,
fallible steps (the sample-test/discovery source and the two persistence
writes inside the `try` block) supplied as an environment returning
`Except`: `.error msg` stands for a raised exception with message `msg`.
The single `complete_audit` call each run performs is the returned
`AuditClose`.  The mutable `counts` dictionary and the set of persisted
objectives are threaded as explicit state, which the exception path keeps
(Python mutates `counts` in place, so the `except` handler records the
partially accumulated counts). -/

/-- The audit counters dictionary `counts` of `process_state`. -/
structure Counts where
  tests_found : Nat
  objectives_found : Nat
  objectives_inferred : Nat
  queries_run : Nat
  deriving DecidableEq, Repr

/-- One test dictionary as produced by `_generate_sample_tests`. -/
structure SampleTest where
  test_system : String
  test_name : String
  test_code : Option String
  subject_area : String
  grade_band : String
  provider : String
  official_source_url : String
  deriving DecidableEq, Repr

/-- The `test_info` dictionary `process_state` builds for the inference
engine from a test dictionary. -/
def testInfoOf (t : SampleTest) : TestInfo :=
  { test_name := some t.test_name
    subject_area := some t.subject_area
    test_system := some t.test_system
    official_source_url := some t.official_source_url }

/-- The fallible external steps of one unit's processing. -/
structure UnitEnv where
  sampleTests : Except String (List SampleTest)
  upsertTest : SampleTest → Except String Nat
  insertObjective : Nat → Objective → Except String Nat

/-- State threaded through one unit's run: the counters plus the list of
objectives persisted so far (in insertion order). -/
def UnitState := Counts × List Objective

/-- Record one accepted objective: `db.insert_objective` already succeeded,
then exactly one of the two provenance counters is incremented. -/
def recordInsert (st : UnitState) (obj : Objective) : UnitState :=
  (if obj.is_inferred then
    { st.1 with objectives_inferred := st.1.objectives_inferred + 1 }
   else
    { st.1 with objectives_found := st.1.objectives_found + 1 },
   st.2 ++ [obj])

/-- The `for obj in objectives:` loop of `process_state`: validate, and
persist plus tally only the accepted objectives. -/
def insertObjectivesLoop (env : UnitEnv) (test_id : Nat) :
    List Objective → UnitState → Except (String × UnitState) UnitState
  | [], st => .ok st
  | obj :: rest, st =>
      if (validateObjective obj).1 then
        match env.insertObjective test_id obj with
        | .error e => .error (e, st)
        | .ok _ => insertObjectivesLoop env test_id rest (recordInsert st obj)
      else insertObjectivesLoop env test_id rest st

/-- The `for test_data in sample_tests:` loop of `process_state`: upsert the
test, count it, infer objectives at threshold 0.4, then validate/persist. -/
def processTestsLoop (env : UnitEnv) :
    List SampleTest → UnitState → Except (String × UnitState) UnitState
  | [], st => .ok st
  | t :: rest, st =>
      match env.upsertTest t with
      | .error e => .error (e, st)
      | .ok test_id =>
          match insertObjectivesLoop env test_id
              (inferObjectives (testInfoOf t) (mkRat 2 5))
              ({ st.1 with tests_found := st.1.tests_found + 1 }, st.2) with
          | .error p => .error p
          | .ok st'' => processTestsLoop env rest st''

/-- All-zero counters, as initialised at the top of `process_state`. -/
def initCounts : Counts :=
  { tests_found := 0, objectives_found := 0
    objectives_inferred := 0, queries_run := 0 }

/-- The body of the `try:` block of `process_state`. -/
def runUnitBody (env : UnitEnv) : Except (String × UnitState) UnitState :=
  match env.sampleTests with
  | .error e => .error (e, (initCounts, []))
  | .ok tests => processTestsLoop env tests (initCounts, [])

/-- The single `complete_audit` call a run performs: terminal status,
final counters and notes. -/
structure AuditClose where
  status : String
  counts : Counts
  notes : String
  deriving DecidableEq, Repr

/-- `ObjectivesOrchestrator.process_state`: run the unit body; on success
close the audit `complete`/`partial` by test count, on an exception catch it
at the unit boundary and close the audit `error` with the message as notes;
either way return the accumulated counts (and, for the proofs, the list of
persisted objectives and the audit close). -/
def processState (env : UnitEnv) : Counts × List Objective × AuditClose :=
  match runUnitBody env with
  | .ok st =>
      (st.1, st.2,
        { status := if 0 < st.1.tests_found then "complete" else "partial"
          counts := st.1
          notes := "Demo mode: generated " ++ toString st.1.tests_found ++ " tests" })
  | .error (e, st) =>
      (st.1, st.2, { status := "error", counts := st.1, notes := e })

/-- The aggregate `total_counts` of `run_full_pipeline`. -/
structure TotalCounts where
  states_processed : Nat
  total_tests : Nat
  total_objectives : Nat
  total_verified : Nat
  total_inferred : Nat
  deriving DecidableEq, Repr

/-- One iteration of the aggregation loop in `run_full_pipeline`. -/
def addUnit (tc : TotalCounts) (c : Counts) : TotalCounts :=
  { states_processed := tc.states_processed + 1
    total_tests := tc.total_tests + c.tests_found
    total_objectives := tc.total_objectives + (c.objectives_found + c.objectives_inferred)
    total_verified := tc.total_verified + c.objectives_found
    total_inferred := tc.total_inferred + c.objectives_inferred }

/-- One iteration of `run_full_pipeline`: process a unit and fold its
counts and audit close into the running aggregate. -/
def pipelineStep (acc : TotalCounts × List AuditClose) (env : UnitEnv) :
    TotalCounts × List AuditClose :=
  let r := processState env
  (addUnit acc.1 r.1, acc.2 ++ [r.2.2])

/-- `ObjectivesOrchestrator.run_full_pipeline`: process every unit in order,
aggregating each unit's returned counts and collecting each unit's audit
close; a unit that ended in `error` contributes like any other. -/
def runFullPipeline (units : List UnitEnv) : TotalCounts × List AuditClose :=
  units.foldl pipelineStep
    ({ states_processed := 0, total_tests := 0, total_objectives := 0
       total_verified := 0, total_inferred := 0 }, [])

/-- The success state of a unit body, when it has one (used to name the
state a concrete successful run reaches). -/
def okUnitState (env : UnitEnv) : UnitState :=
  match runUnitBody env with
  | .ok st => st
  | .error p => p.2

/-- Invariant threaded through one unit's run: the two provenance counters
sum to the number of persisted objectives, and every persisted objective
passed the validation gate. -/
def UnitInv (st : UnitState) : Prop :=
  st.1.objectives_found + st.1.objectives_inferred = st.2.length ∧
  ∀ o ∈ st.2, (validateObjective o).1 = true

/-! ### Concrete instances used by the witnesses and counterexamples -/

/-- A `test_info` with no subject, no recognizable name and no system. -/
def tiEmpty : TestInfo :=
  { test_name := none, subject_area := none, test_system := none
    official_source_url := none }

/-- A Mathematics `test_info` as built by the orchestrator's sample data. -/
def tiMath : TestInfo :=
  { test_name := some "Mathematics: Content Knowledge"
    subject_area := some "Mathematics"
    test_system := some "Praxis"
    official_source_url := some "https://www.ets.org/praxis/prepare/materials/5161" }

/-- The scenario-C objective record: a 2-word non-inferred candidate. -/
def applyKnowledgeObj : Objective :=
  { objective_index := 0, objective_text := "Apply knowledge"
    evidence_excerpt := none, evidence_url := none, is_inferred := false
    confidence := 1, rationale := "", validation_status := "verified" }

/-- An inferred objective with rationale `"r"` and mid confidence. -/
def c6Obj : Objective :=
  { objective_index := 0, objective_text := "t"
    evidence_excerpt := none, evidence_url := none, is_inferred := true
    confidence := mkRat 1 2, rationale := "r", validation_status := "inferred" }

/-- A reachable URL that does not end in `.pdf` but contains `.pdf` before
its query string. -/
def c2Url : String := "http://example.com/doc.pdf?x=1"

/-- The network behaviour for `c2Url`: 200, HTML content type, no redirect,
non-PDF body. -/
def c2Env : HttpEnv :=
  { head := { status := 200, contentType := "text/html"
              finalUrl := "http://example.com/doc.pdf?x=1", body := "" }
    get := { status := 200, contentType := "text/html"
             finalUrl := "http://example.com/doc.pdf?x=1", body := "hello" } }

/-- One Praxis Mathematics sample test, as `_generate_sample_tests` emits. -/
def mathSampleTest : SampleTest :=
  { test_system := "Praxis", test_name := "Mathematics: Content Knowledge"
    test_code := some "5161", subject_area := "Mathematics"
    grade_band := "7-12", provider := "ETS"
    official_source_url := "https://www.ets.org/praxis/prepare/materials/5161" }

/-- A unit whose external steps all succeed, with one Mathematics test. -/
def envMath : UnitEnv :=
  { sampleTests := .ok [mathSampleTest]
    upsertTest := fun _ => .ok 1
    insertObjective := fun _ _ => .ok 1 }

/-- A unit whose discovery/sample step raises before producing any test. -/
def envErr : UnitEnv :=
  { sampleTests := .error "boom"
    upsertTest := fun _ => .ok 1
    insertObjective := fun _ _ => .ok 1 }

/-- Two Praxis Elementary Education candidates sharing the dedup key but
found at different source URLs. -/
def praxisCandA : TestCandidate :=
  { test_system := some "Praxis", test_name := some "Elementary Education"
    test_code := some "5001", official_source_url := some "https://www.ets.org/praxis/5001"
    source_content := none, provider := some "ETS" }

/-- The second candidate with the same key as `praxisCandA`. -/
def praxisCandB : TestCandidate :=
  { test_system := some "Praxis", test_name := some "Elementary Education"
    test_code := some "5001", official_source_url := some "https://doe.example.gov/tests"
    source_content := none, provider := some "ETS" }

/-! ## Helper lemmas -/

theorem ratMin_le_right (a b : ℚ) : ratMin a b ≤ b := by
  unfold ratMin
  split_ifs with h
  · exact h
  · exact le_refl b

theorem mkInferred_length (texts : List String) (c : ℚ) (r : String)
    (u : Option String) :
    (mkInferredObjectives texts c r u).length = texts.length := by
  simp [mkInferredObjectives]

theorem mkInferred_ne_nil {texts : List String} (h : texts ≠ []) (c : ℚ)
    (r : String) (u : Option String) :
    mkInferredObjectives texts c r u ≠ [] := by
  intro hc
  apply h
  have hlen := congrArg List.length hc
  simpa [mkInferred_length, List.length_eq_zero] using hlen

theorem mkInferred_mem {texts : List String} {c : ℚ} {r : String}
    {u : Option String} {obj : Objective}
    (h : obj ∈ mkInferredObjectives texts c r u) :
    obj.confidence = c ∧ obj.is_inferred = true ∧
      obj.validation_status = "inferred" ∧ obj.rationale = r ∧
      obj.evidence_url = u := by
  rcases List.mem_map.mp h with ⟨p, _, rfl⟩
  exact ⟨rfl, rfl, rfl, rfl, rfl⟩

theorem mkInferred_map_text (texts : List String) (c : ℚ) (r : String)
    (u : Option String) :
    (mkInferredObjectives texts c r u).map Objective.objective_text = texts := by
  simp only [mkInferredObjectives, List.map_map]
  exact List.enum_map_snd texts

theorem mkInferred_map_idx (texts : List String) (c : ℚ) (r : String)
    (u : Option String) :
    (mkInferredObjectives texts c r u).map Objective.objective_index
      = List.range texts.length := by
  simp only [mkInferredObjectives, List.map_map]
  exact List.enum_map_fst texts

theorem filter_mkInferred_of_le {θ c : ℚ} (h : θ ≤ c) (texts : List String)
    (r : String) (u : Option String) :
    (mkInferredObjectives texts c r u).filter
        (fun obj => θ ≤ obj.confidence)
      = mkInferredObjectives texts c r u := by
  apply List.filter_eq_self.mpr
  intro o ho
  have hc := (mkInferred_mem ho).1
  simpa [hc] using h

theorem filter_mkInferred_of_lt {θ c : ℚ} (h : c < θ) (texts : List String)
    (r : String) (u : Option String) :
    (mkInferredObjectives texts c r u).filter
        (fun obj => θ ≤ obj.confidence) = [] := by
  apply List.filter_eq_nil_iff.mpr
  intro o ho
  have hc := (mkInferred_mem ho).1
  simp [hc, not_le.mpr h]

theorem subjectTemplates_ne_nil {s : String} {l : List String}
    (h : subjectTemplates s = some l) : l ≠ [] := by
  unfold subjectTemplates at h
  split_ifs at h <;>
    first
    | exact Option.noConfusion h
    | · rw [Option.some.injEq] at h
        rw [← h]
        simp

theorem generic_ne_nil (ts tn : String) :
    getGenericTestObjectives ts tn ≠ [] := by
  unfold getGenericTestObjectives
  split_ifs <;> simp

theorem selectedTemplate_ne_nil {ti : TestInfo} {l : List String}
    (h : selectedTemplate ti = some l) : l ≠ [] := by
  simp only [selectedTemplate] at h
  split_ifs at h
  exact subjectTemplates_ne_nil h

theorem inferCandidates_ne_nil (ti : TestInfo) : inferCandidates ti ≠ [] := by
  unfold inferCandidates
  cases h : selectedTemplate ti with
  | some l =>
      simp only [h]
      exact mkInferred_ne_nil (selectedTemplate_ne_nil h) _ _ _
  | none =>
      simp only [h]
      split_ifs
      · exact mkInferred_ne_nil (by decide) _ _ _
      · exact mkInferred_ne_nil (generic_ne_nil _ _) _ _ _
      · exact mkInferred_ne_nil (by decide) _ _ _

theorem inferCandidates_conf_ge (ti : TestInfo) {o : Objective}
    (h : o ∈ inferCandidates ti) : (mkRat 2 5) ≤ o.confidence := by
  unfold inferCandidates at h
  rcases hsel : selectedTemplate ti with _ | l <;> simp only [hsel] at h
  · split_ifs at h
    all_goals
      have hc := (mkInferred_mem h).1
      rw [hc]
    all_goals decide
  · have hc := (mkInferred_mem h).1
    rw [hc]
    decide

theorem inferCandidates_fallback {ti : TestInfo}
    (hsub : selectedTemplate ti = none)
    (hname : strContains (strLower (ti.test_name.getD "")) "elementary" = false)
    (hname' : strContains (strLower (ti.test_name.getD "")) "general" = false)
    (hsys : ti.test_system.getD "" = "") :
    inferCandidates ti =
      mkInferredObjectives (intascStandards.take 5) (mkRat 2 5)
        "Minimal inference based on general teaching standards; official objectives not found"
        (some "https://ccsso.org/intasc") := by
  simp only [inferCandidates, hsub, hname, hname', hsys]
  simp

/-! ## Claim theorems -/

/-- C1: for every `test_info` the candidate list `infer_objectives` builds
before the confidence-threshold filter is non-empty, and when no subject
template, no elementary/general name match and no test system applies, the
minimal fallback emits exactly the first five InTASC statements with
confidence 0.40 each, all retained by the inclusive threshold 0.4. -/
theorem C1_infer_before_filter_nonempty (ti : TestInfo)
    (hsub : selectedTemplate ti = none)
    (hname : strContains (strLower (ti.test_name.getD "")) "elementary" = false)
    (hname' : strContains (strLower (ti.test_name.getD "")) "general" = false)
    (hsys : ti.test_system.getD "" = "") :
    (∀ ti' : TestInfo, inferCandidates ti' ≠ []) ∧
    (inferCandidates ti).map Objective.objective_text = intascStandards.take 5 ∧
    (∀ o ∈ inferCandidates ti, o.confidence = mkRat 2 5) ∧
    inferObjectives ti (mkRat 2 5) = inferCandidates ti := by
  have hfb := inferCandidates_fallback hsub hname hname' hsys
  refine ⟨inferCandidates_ne_nil, ?_, ?_, ?_⟩
  · rw [hfb, mkInferred_map_text]
  · intro o ho
    rw [hfb] at ho
    exact (mkInferred_mem ho).1
  · unfold inferObjectives
    rw [hfb, filter_mkInferred_of_le le_rfl]

/-- Witness for C1 at the empty `test_info`. -/
theorem C1_witness :
    selectedTemplate tiEmpty = none ∧
    (inferCandidates tiEmpty).map Objective.objective_text
      = intascStandards.take 5 :=
  ⟨by decide,
    (C1_infer_before_filter_nonempty tiEmpty (by decide) (by decide)
      (by decide) rfl).2.1⟩

/-- C4: at the default threshold 0.5 the public interface returns `[]` on a
`test_info` that takes the minimal fallback (confidence 0.40 < 0.5); it
returns `[]` there for every threshold above 0.40, and the non-empty
guarantee holds at the public interface exactly for thresholds ≤ 0.40, where
it holds for every input. -/
theorem C4_default_threshold_empty (ti : TestInfo)
    (hsub : selectedTemplate ti = none)
    (hname : strContains (strLower (ti.test_name.getD "")) "elementary" = false)
    (hname' : strContains (strLower (ti.test_name.getD "")) "general" = false)
    (hsys : ti.test_system.getD "" = "") :
    inferObjectives ti (mkRat 1 2) = [] ∧
    (∀ θ : ℚ, mkRat 2 5 < θ → inferObjectives ti θ = []) ∧
    (∀ (ti' : TestInfo) (θ : ℚ), θ ≤ mkRat 2 5 → inferObjectives ti' θ ≠ []) := by
  have hfb := inferCandidates_fallback hsub hname hname' hsys
  refine ⟨?_, ?_, ?_⟩
  · unfold inferObjectives
    rw [hfb]
    exact filter_mkInferred_of_lt (by decide) _ _ _
  · intro θ hθ
    unfold inferObjectives
    rw [hfb]
    exact filter_mkInferred_of_lt hθ _ _ _
  · intro ti' θ hθ
    unfold inferObjectives
    have hall : ∀ o ∈ inferCandidates ti', decide (θ ≤ o.confidence) = true := by
      intro o ho
      simpa using le_trans hθ (inferCandidates_conf_ge ti' ho)
    rw [List.filter_eq_self.mpr hall]
    exact inferCandidates_ne_nil ti'

/-- Witness for C4 at the empty `test_info`. -/
theorem C4_witness :
    inferObjectives tiEmpty (mkRat 1 2) = [] ∧ inferObjectives tiEmpty (mkRat 2 5) ≠ [] :=
  ⟨(C4_default_threshold_empty tiEmpty (by decide) (by decide) (by decide)
      rfl).1,
    (C4_default_threshold_empty tiEmpty (by decide) (by decide) (by decide)
      rfl).2.2 tiEmpty (mkRat 2 5) le_rfl⟩

/-- C5: a `test_info` whose subject area is Mathematics at threshold 0.4
yields exactly the fixed Mathematics template list in order, each item with
confidence 0.75, `is_inferred`, status `inferred`, sequential zero-based
indices and the rationale citing the standard Mathematics frameworks. -/
theorem C5_mathematics_template (ti : TestInfo)
    (h : ti.subject_area = some "Mathematics") :
    (inferObjectives ti (mkRat 2 5)).map Objective.objective_text
        = (subjectTemplates "Mathematics").getD [] ∧
    (inferObjectives ti (mkRat 2 5)).map Objective.objective_index = List.range 9 ∧
    ∀ o ∈ inferObjectives ti (mkRat 2 5),
      o.confidence = mkRat 3 4 ∧ o.is_inferred = true ∧
      o.validation_status = "inferred" ∧
      o.rationale =
        "Inferred from standard Mathematics teacher certification competency frameworks" := by
  have hsel : selectedTemplate ti
      = some ((subjectTemplates "Mathematics").getD []) := by
    simp only [selectedTemplate, h, Option.getD_some]
    rw [if_neg (by decide)]
    rfl
  have hcand : inferCandidates ti =
      mkInferredObjectives ((subjectTemplates "Mathematics").getD []) (mkRat 3 4)
        ("Inferred from standard " ++ "Mathematics" ++
          " teacher certification competency frameworks") none := by
    simp only [inferCandidates, hsel, h, Option.getD_some]
  have hobj : inferObjectives ti (mkRat 2 5) = inferCandidates ti := by
    unfold inferObjectives
    rw [hcand, filter_mkInferred_of_le (by decide)]
  refine ⟨?_, ?_, ?_⟩
  · rw [hobj, hcand, mkInferred_map_text]
  · rw [hobj, hcand, mkInferred_map_idx]
    rfl
  · intro o ho
    rw [hobj, hcand] at ho
    have hm := mkInferred_mem ho
    refine ⟨hm.1, hm.2.1, hm.2.2.1, ?_⟩
    rw [hm.2.2.2.1]
    rfl

/-- Witness for C5 at a concrete Mathematics `test_info`. -/
theorem C5_witness :
    (inferObjectives tiMath (mkRat 2 5)).map Objective.objective_text
      = (subjectTemplates "Mathematics").getD [] :=
  (C5_mathematics_template tiMath rfl).1

theorem shortIssue_nil_iff (obj : Objective) :
    shortIssue obj = [] ↔ 6 ≤ wordCount obj.objective_text := by
  unfold shortIssue
  split_ifs with h
  · exact iff_of_false (by simp) (by omega)
  · exact iff_of_true rfl (by omega)

theorem verbIssue_nil_iff (obj : Objective) :
    verbIssue obj = [] ↔ hasActionVerb obj.objective_text = true := by
  unfold verbIssue
  split_ifs with h
  · exact iff_of_true rfl h
  · exact iff_of_false (by simp) h

theorem boilerIssue_nil_iff (obj : Objective) :
    boilerIssue obj = [] ↔ hasBoilerplate obj.objective_text = false := by
  unfold boilerIssue
  split_ifs with h
  · exact iff_of_false (by simp) (by simp [h])
  · exact iff_of_true rfl (by simpa using h)

theorem inferredIssue_nil_iff (obj : Objective) :
    inferredIssue obj = [] ↔
      (obj.is_inferred = true →
        (0 ≤ obj.confidence ∧ obj.confidence ≤ 1) ∧ obj.rationale ≠ "") := by
  unfold inferredIssue
  by_cases h1 : obj.is_inferred = true
  · by_cases h2 : 0 ≤ obj.confidence ∧ obj.confidence ≤ 1 <;>
    by_cases h3 : obj.rationale = "" <;>
      simp [h1, h2, h3]
  · have h1f : obj.is_inferred = false := by simpa using h1
    simp [h1f]

theorem validateObjective_issues_nil_iff (obj : Objective) :
    (validateObjective obj).2 = [] ↔
      (6 ≤ wordCount obj.objective_text ∧
       hasActionVerb obj.objective_text = true ∧
       hasBoilerplate obj.objective_text = false ∧
       (obj.is_inferred = true →
         (0 ≤ obj.confidence ∧ obj.confidence ≤ 1) ∧ obj.rationale ≠ "")) := by
  show shortIssue obj ++ verbIssue obj ++ boilerIssue obj ++ inferredIssue obj
      = [] ↔ _
  simp only [List.append_eq_nil]
  rw [shortIssue_nil_iff, verbIssue_nil_iff, boilerIssue_nil_iff,
    inferredIssue_nil_iff]
  tauto

theorem validateObjective_fst_iff (obj : Objective) :
    (validateObjective obj).1 = true ↔ (validateObjective obj).2 = [] := by
  show (shortIssue obj ++ verbIssue obj ++ boilerIssue obj ++
      inferredIssue obj).isEmpty = true ↔ _
  exact List.isEmpty_iff

/-- C7: `validate_objective` accepts (true with empty issue list) exactly
when the text has at least 6 words, contains one of the fixed action verbs,
contains no fixed boilerplate phrase, and — when inferred — the confidence
lies in [0,1] and the rationale is non-empty; the accept flag and the empty
issue list coincide, and the 2-word text "Apply knowledge" is rejected with
an issue citing the minimum word count. -/
theorem C7_validate_objective (obj : Objective) :
    (((validateObjective obj).1 = true ∧ (validateObjective obj).2 = []) ↔
      (6 ≤ wordCount obj.objective_text ∧
       hasActionVerb obj.objective_text = true ∧
       hasBoilerplate obj.objective_text = false ∧
       (obj.is_inferred = true →
         (0 ≤ obj.confidence ∧ obj.confidence ≤ 1) ∧ obj.rationale ≠ ""))) ∧
    ((validateObjective obj).1 = true ↔ (validateObjective obj).2 = []) ∧
    (validateObjective applyKnowledgeObj).1 = false ∧
    "Objective too short (2 words, minimum 6)"
      ∈ (validateObjective applyKnowledgeObj).2 := by
  refine ⟨?_, validateObjective_fst_iff obj, by decide, by decide⟩
  constructor
  · rintro ⟨-, h2⟩
    exact (validateObjective_issues_nil_iff obj).mp h2
  · intro h
    have hnil := (validateObjective_issues_nil_iff obj).mpr h
    exact ⟨(validateObjective_fst_iff obj).mpr hnil, hnil⟩

/-- C8: `assign_validation_status` returns `verified` exactly for
non-inferred objectives with a truthy evidence URL, `partial` exactly for
non-inferred objectives without one or inferred objectives with confidence
at least 0.7, `inferred` exactly for inferred objectives with confidence
below 0.7, and always one of the three. -/
theorem C8_assign_validation_status (obj : Objective) :
    (assignValidationStatus obj = "verified" ↔
      obj.is_inferred = false ∧ optTruthy obj.evidence_url = true) ∧
    (assignValidationStatus obj = "partial" ↔
      ((obj.is_inferred = false ∧ optTruthy obj.evidence_url = false) ∨
       (obj.is_inferred = true ∧ (mkRat 7 10) ≤ obj.confidence))) ∧
    (assignValidationStatus obj = "inferred" ↔
      (obj.is_inferred = true ∧ obj.confidence < mkRat 7 10)) ∧
    (assignValidationStatus obj = "verified" ∨
     assignValidationStatus obj = "partial" ∨
     assignValidationStatus obj = "inferred") := by
  unfold assignValidationStatus
  split_ifs with h1 h2 h3
  · have h1b : ¬ obj.is_inferred = false := by simp [h1]
    exact ⟨iff_of_false (by decide) (fun hc => h1b hc.1),
      iff_of_true rfl (Or.inr ⟨h1, h2⟩),
      iff_of_false (by decide) (fun hc => absurd h2 (not_le.mpr hc.2)),
      Or.inr (Or.inl rfl)⟩
  · have h1b : ¬ obj.is_inferred = false := by simp [h1]
    exact ⟨iff_of_false (by decide) (fun hc => h1b hc.1),
      iff_of_false (by decide)
        (fun hc => hc.elim (fun hp => h1b hp.1) (fun hp => h2 hp.2)),
      iff_of_true rfl ⟨h1, not_le.mp h2⟩,
      Or.inr (Or.inr rfl)⟩
  · have h1f : obj.is_inferred = false := by simpa using h1
    exact ⟨iff_of_true rfl ⟨h1f, h3⟩,
      iff_of_false (by decide)
        (fun hc => hc.elim (fun hp => by simp [h3] at hp)
          (fun hp => by simp [h1f] at hp)),
      iff_of_false (by decide) (fun hc => by simp [h1f] at hc),
      Or.inl rfl⟩
  · have h1f : obj.is_inferred = false := by simpa using h1
    have h3f : optTruthy obj.evidence_url = false := by simpa using h3
    exact ⟨iff_of_false (by decide) (fun hc => by simp [h3f] at hc),
      iff_of_true rfl (Or.inl ⟨h1f, h3f⟩),
      iff_of_false (by decide) (fun hc => by simp [h1f] at hc),
      Or.inr (Or.inl rfl)⟩

theorem dedupAux_sublist (ts : List TestCandidate) :
    ∀ seen, (dedupAux seen ts).Sublist ts := by
  induction ts with
  | nil => intro seen; simp [dedupAux]
  | cons t rest ih =>
      intro seen
      unfold dedupAux
      split_ifs
      · exact (ih seen).trans (List.sublist_cons_self t rest)
      · exact (ih (dedupKey t :: seen)).cons₂ t

theorem dedupAux_filter_of_mem {k : String × String × String}
    (ts : List TestCandidate) :
    ∀ seen, k ∈ seen →
      (dedupAux seen ts).filter (fun t => dedupKey t = k) = [] := by
  induction ts with
  | nil => intro seen _; simp [dedupAux]
  | cons t rest ih =>
      intro seen hk
      unfold dedupAux
      split_ifs with hmem
      · exact ih seen hk
      · have hne : ¬ dedupKey t = k := fun he => hmem (he ▸ hk)
        rw [List.filter_cons_of_neg (by simp [hne])]
        exact ih (dedupKey t :: seen) (List.mem_cons_of_mem _ hk)

theorem dedupAux_filter_of_not_mem {k : String × String × String}
    (ts : List TestCandidate) :
    ∀ seen, k ∉ seen →
      (dedupAux seen ts).filter (fun t => dedupKey t = k)
        = (ts.filter (fun t => dedupKey t = k)).take 1 := by
  induction ts with
  | nil => intro seen _; simp [dedupAux]
  | cons t rest ih =>
      intro seen hk
      unfold dedupAux
      split_ifs with hmem
      · have hne : ¬ dedupKey t = k := fun he => hk (he ▸ hmem)
        rw [ih seen hk]
        simp [List.filter_cons, hne]
      · by_cases hkt : dedupKey t = k
        · subst hkt
          rw [List.filter_cons_of_pos (by simp), List.filter_cons_of_pos (by simp)]
          rw [dedupAux_filter_of_mem rest (dedupKey t :: seen)
            (List.mem_cons_self _ _)]
          simp
        · rw [List.filter_cons_of_neg (by simp [hkt]),
            List.filter_cons_of_neg (by simp [hkt])]
          exact ih (dedupKey t :: seen)
            (by
              simp only [List.mem_cons, not_or]
              exact ⟨fun he => hkt he.symm, hk⟩)

theorem dedupAux_fresh (ts : List TestCandidate) :
    ∀ seen, ∀ t ∈ dedupAux seen ts, dedupKey t ∉ seen := by
  induction ts with
  | nil => intro seen t ht; simp [dedupAux] at ht
  | cons u rest ih =>
      intro seen t ht
      unfold dedupAux at ht
      split_ifs at ht with hmem
      · exact ih seen t ht
      · rcases List.mem_cons.mp ht with rfl | hmem'
        · exact hmem
        · intro hks
          exact ih _ t hmem' (List.mem_cons_of_mem _ hks)

theorem dedupAux_eq_self (ts : List TestCandidate) :
    ∀ seen, (∀ t ∈ ts, dedupKey t ∉ seen) → (ts.map dedupKey).Nodup →
      dedupAux seen ts = ts := by
  induction ts with
  | nil => intro seen _ _; rfl
  | cons t rest ih =>
      intro seen hfresh hnd
      unfold dedupAux
      rw [if_neg (hfresh t (List.mem_cons_self _ _))]
      congr 1
      apply ih (dedupKey t :: seen)
      · intro u hu
        simp only [List.mem_cons, not_or]
        refine ⟨?_, hfresh u (List.mem_cons_of_mem _ hu)⟩
        intro he
        exact (List.nodup_cons.mp (by simpa using hnd)).1
          (he ▸ List.mem_map_of_mem dedupKey hu)
      · exact (List.nodup_cons.mp (by simpa using hnd)).2

theorem dedupAux_keys_nodup (ts : List TestCandidate) :
    ∀ seen, ((dedupAux seen ts).map dedupKey).Nodup := by
  induction ts with
  | nil => intro seen; simp [dedupAux]
  | cons t rest ih =>
      intro seen
      unfold dedupAux
      split_ifs with hmem
      · exact ih seen
      · simp only [List.map_cons, List.nodup_cons]
        refine ⟨?_, ih (dedupKey t :: seen)⟩
        intro hmem'
        rcases List.mem_map.mp hmem' with ⟨u, hu, hku⟩
        exact dedupAux_fresh rest _ u hu (hku ▸ List.mem_cons_self _ _)

/-- C9: discovery deduplication keeps, per `(system, name, code)` key,
exactly the first candidate encountered (the filtered survivors at any key
are the first input carrying it), preserves encounter order (the result is a
sublist of the input), collapses a same-key pair to its first element, and
is idempotent. -/
theorem C9_dedup_first_seen_idempotent (tests : List TestCandidate)
    (k : String × String × String) (t1 t2 : TestCandidate) :
    (deduplicateTests tests).Sublist tests ∧
    (deduplicateTests tests).filter (fun t => dedupKey t = k)
      = (tests.filter (fun t => dedupKey t = k)).take 1 ∧
    deduplicateTests (deduplicateTests tests) = deduplicateTests tests ∧
    (dedupKey t1 = dedupKey t2 → deduplicateTests [t1, t2] = [t1]) := by
  refine ⟨dedupAux_sublist tests [], dedupAux_filter_of_not_mem tests []
    (List.not_mem_nil k), ?_, ?_⟩
  · exact dedupAux_eq_self (deduplicateTests tests) []
      (fun t _ => List.not_mem_nil _) (dedupAux_keys_nodup tests [])
  · intro hk
    unfold deduplicateTests dedupAux
    rw [if_neg (List.not_mem_nil _)]
    unfold dedupAux
    rw [if_pos (by rw [← hk]; exact List.mem_cons_self _ _)]
    rfl

/-- Witness for C9 at the two Praxis Elementary Education candidates of
scenario D. -/
theorem C9_witness :
    dedupKey praxisCandA = dedupKey praxisCandB ∧
    deduplicateTests [praxisCandA, praxisCandB] = [praxisCandA] :=
  ⟨by decide,
    (C9_dedup_first_seen_idempotent [praxisCandA, praxisCandB]
      ("Praxis", "Elementary Education", "5001") praxisCandA
      praxisCandB).2.2.2 (by decide)⟩

/-- C6 (amended): `enhance_confidence` preserves length; with an empty
supporting list it returns every objective unchanged, with no note; with a
non-empty supporting list each inferred objective's confidence becomes
`min(old + min(0.1 * count, 0.3), 1.0)` — hence never exceeds 1.0 — and the
corroboration note is appended to its rationale; non-inferred objectives are
untouched; and every output confidence is at most 1 or equal to its input
confidence. -/
theorem C6_enhance_confidence (objectives : List Objective)
    (supporting : List String) :
    (enhanceConfidence objectives supporting).length = objectives.length ∧
    (supporting = [] → enhanceConfidence objectives supporting = objectives) ∧
    (∀ i (hi : i < objectives.length)
        (hi2 : i < (enhanceConfidence objectives supporting).length),
      ((objectives.get ⟨i, hi⟩).is_inferred = false →
        (enhanceConfidence objectives supporting).get ⟨i, hi2⟩
          = objectives.get ⟨i, hi⟩) ∧
      (supporting ≠ [] → (objectives.get ⟨i, hi⟩).is_inferred = true →
        ((enhanceConfidence objectives supporting).get ⟨i, hi2⟩).confidence
            = ratMin ((objectives.get ⟨i, hi⟩).confidence
                + ratMin (supporting.length * mkRat 1 10) (mkRat 3 10)) 1 ∧
        ((enhanceConfidence objectives supporting).get ⟨i, hi2⟩).rationale
            = (objectives.get ⟨i, hi⟩).rationale
                ++ supportNote supporting.length) ∧
      (((enhanceConfidence objectives supporting).get ⟨i, hi2⟩).confidence ≤ 1 ∨
        ((enhanceConfidence objectives supporting).get ⟨i, hi2⟩).confidence
          = (objectives.get ⟨i, hi⟩).confidence)) := by
  refine ⟨by simp [enhanceConfidence], ?_, ?_⟩
  · intro h
    subst h
    have h1 : enhanceOne [] = (id : Objective → Objective) := by
      funext obj
      unfold enhanceOne
      rw [if_neg (by simp)]
      rfl
    show List.map (enhanceOne []) objectives = objectives
    rw [h1, List.map_id]
  · intro i hi hi2
    have hget : (enhanceConfidence objectives supporting).get ⟨i, hi2⟩
        = enhanceOne supporting (objectives.get ⟨i, hi⟩) := by
      simp [enhanceConfidence]
    rw [hget]
    unfold enhanceOne
    by_cases hg : (objectives.get ⟨i, hi⟩).is_inferred = true ∧ supporting ≠ []
    · rw [if_pos hg]
      refine ⟨fun hf => ?_, fun _ _ => ⟨rfl, rfl⟩, Or.inl (ratMin_le_right _ _)⟩
      rw [hf] at hg
      exact absurd hg.1 (by decide)
    · rw [if_neg hg]
      exact ⟨fun _ => rfl, fun hs hinf => absurd ⟨hinf, hs⟩ hg,
        Or.inr rfl⟩

/-- C6 counterexample: with an empty supporting list the source leaves an
inferred objective's rationale unchanged, while the claim predicts that the
note counting zero corroborating sources is appended. -/
theorem C6_counterexample :
    (enhanceConfidence [c6Obj] []).map Objective.rationale = ["r"] ∧
    ¬ (enhanceConfidence [c6Obj] []).map Objective.rationale
        = ["r | Supported by 0 additional source(s)"] := by
  constructor <;> decide

/-- Witness for C6 at a one-element objective list and one supporting URL. -/
theorem C6_witness :
    (["u"] : List String) ≠ [] ∧ c6Obj.is_inferred = true ∧
    ((enhanceConfidence [c6Obj] ["u"]).get ⟨0, by decide⟩).rationale
      = c6Obj.rationale ++ supportNote 1 :=
  ⟨by decide, by decide,
    (((C6_enhance_confidence [c6Obj] ["u"]).2.2 0 (by decide)
      (by decide)).2.1 (by decide) (by decide)).2⟩

/-- C2 (amended): on a well-formed reachable URL (status 200 after the
HEAD/GET fallback), `is_valid_pdf` accepts iff the Content-Type contains
`application/pdf`, or the URL (or final redirected URL) ends in `.pdf` and
either the first fetched bytes begin with `%PDF` or the fetched body is
empty and the final GET URL contains `.pdf`, or neither URL ends in `.pdf`
but the final URL contains `.pdf` as a substring (accepted with no
signature check); in every other case it rejects. -/
theorem C2_pdf_acceptance (url : String) (env : HttpEnv) :
    (isValidPdf url env).1 = true ↔
      (urlWellFormed url = true ∧ (effectiveResponse env).status = 200 ∧
        (strContains (strLower (effectiveResponse env).contentType)
            "application/pdf" = true ∨
         ((endsWithStr (strLower url) ".pdf" ||
             endsWithStr (strLower (effectiveResponse env).finalUrl) ".pdf")
             = true ∧
           ((∃ chunk, firstChunk env = some chunk ∧
               startsWithStr chunk "%PDF" = true) ∨
            (firstChunk env = none ∧
              strContains (strLower env.get.finalUrl) ".pdf" = true))) ∨
         ((endsWithStr (strLower url) ".pdf" ||
             endsWithStr (strLower (effectiveResponse env).finalUrl) ".pdf")
             = false ∧
           strContains (strLower (effectiveResponse env).finalUrl) ".pdf"
             = true))) := by
  unfold isValidPdf
  by_cases h1 : urlWellFormed url = true
  · by_cases h2 : (effectiveResponse env).status = 200
    · by_cases h3 : strContains (strLower (effectiveResponse env).contentType)
          "application/pdf" = true
      · simp [h1, h2, h3]
      · by_cases h4 : (endsWithStr (strLower url) ".pdf" ||
            endsWithStr (strLower (effectiveResponse env).finalUrl) ".pdf")
            = true
        · rcases hc : firstChunk env with _ | chunk
          · by_cases h6 : strContains (strLower env.get.finalUrl) ".pdf" = true
            · simp [h1, h2, h3, h4, hc, h6]
            · simp [h1, h2, h3, h4, hc, h6]
          · by_cases h5 : startsWithStr chunk "%PDF" = true
            · simp [h1, h2, h3, h4, hc, h5]
            · simp [h1, h2, h3, h4, hc, h5]
        · by_cases h7 : strContains
              (strLower (effectiveResponse env).finalUrl) ".pdf" = true
          · simp [h1, h2, h3, h4, h7]
          · simp [h1, h2, h3, h4, h7]
    · simp [h1, h2]
  · simp [h1]

/-- C2 counterexample: `is_valid_pdf` accepts a reachable URL whose final URL
merely contains `.pdf` before a query string: the content type is not PDF,
neither the URL nor the final URL ends in `.pdf`, and the body does not
carry the PDF signature, yet the URL-extension path accepts. -/
theorem C2_counterexample :
    (isValidPdf c2Url c2Env).1 = true ∧
    strContains (strLower (effectiveResponse c2Env).contentType)
      "application/pdf" = false ∧
    (endsWithStr (strLower c2Url) ".pdf" ||
      endsWithStr (strLower (effectiveResponse c2Env).finalUrl) ".pdf")
      = false ∧
    startsWithStr c2Env.get.body "%PDF" = false := by
  refine ⟨?_, ?_, ?_, ?_⟩ <;> decide

theorem runFullPipeline_foldl (units : List UnitEnv) :
    ∀ acc : TotalCounts × List AuditClose,
      (units.foldl pipelineStep acc).1.states_processed
          = acc.1.states_processed + units.length ∧
      (units.foldl pipelineStep acc).1.total_tests
          = acc.1.total_tests
            + (units.map (fun u => (processState u).1.tests_found)).sum ∧
      (units.foldl pipelineStep acc).1.total_objectives
          = acc.1.total_objectives
            + (units.map (fun u => (processState u).1.objectives_found
                + (processState u).1.objectives_inferred)).sum ∧
      (units.foldl pipelineStep acc).2.length = acc.2.length + units.length := by
  induction units with
  | nil => intro acc; simp
  | cons env rest ih =>
      intro acc
      simp only [List.foldl_cons, List.map_cons, List.sum_cons, List.length_cons]
      obtain ⟨ha, hb, hc, hd⟩ := ih (pipelineStep acc env)
      have hs1 : (pipelineStep acc env).1.states_processed
          = acc.1.states_processed + 1 := rfl
      have hs2 : (pipelineStep acc env).1.total_tests
          = acc.1.total_tests + (processState env).1.tests_found := rfl
      have hs3 : (pipelineStep acc env).1.total_objectives
          = acc.1.total_objectives + ((processState env).1.objectives_found
              + (processState env).1.objectives_inferred) := rfl
      have hs4 : (pipelineStep acc env).2.length = acc.2.length + 1 := by
        simp [pipelineStep]
      refine ⟨?_, ?_, ?_, ?_⟩
      · rw [ha, hs1]; omega
      · rw [hb, hs2]; omega
      · rw [hc, hs3]; omega
      · rw [hd, hs4]; omega

/-- C3: one unit's processing closes its audit with exactly one terminal
status — `complete` when at least one test was produced, `partial` when none
was, and `error` with the failure message recorded as notes when the unit
body raised — the unit function always returns normally, so the batch loop
processes every unit and aggregates every unit's counts regardless of
individual failures. -/
theorem C3_unit_failure_isolation (env : UnitEnv) :
    ((processState env).2.2.status = "complete" ∨
     (processState env).2.2.status = "partial" ∨
     (processState env).2.2.status = "error") ∧
    (∀ st, runUnitBody env = .ok st →
      (processState env).2.2.status
          = (if 0 < st.1.tests_found then "complete" else "partial") ∧
      (processState env).2.2.counts = st.1) ∧
    (∀ e st, runUnitBody env = .error (e, st) →
      (processState env).2.2.status = "error" ∧
      (processState env).2.2.notes = e ∧
      (processState env).2.2.counts = st.1) ∧
    (∀ units : List UnitEnv,
      (runFullPipeline units).1.states_processed = units.length ∧
      (runFullPipeline units).2.length = units.length ∧
      (runFullPipeline units).1.total_tests
        = (units.map (fun u => (processState u).1.tests_found)).sum ∧
      (runFullPipeline units).1.total_objectives
        = (units.map (fun u => (processState u).1.objectives_found
            + (processState u).1.objectives_inferred)).sum) := by
  refine ⟨?_, ?_, ?_, ?_⟩
  · unfold processState
    rcases h : runUnitBody env with p | st
    · exact Or.inr (Or.inr rfl)
    · simp only []
      split_ifs
      · exact Or.inl rfl
      · exact Or.inr (Or.inl rfl)
  · intro st h
    unfold processState
    rw [h]
    exact ⟨rfl, rfl⟩
  · intro e st h
    unfold processState
    rw [h]
    exact ⟨rfl, rfl, rfl⟩
  · intro units
    obtain ⟨ha, hb, hc, hd⟩ := runFullPipeline_foldl units
      ({ states_processed := 0, total_tests := 0, total_objectives := 0
         total_verified := 0, total_inferred := 0 }, [])
    exact ⟨by simpa using ha, by simpa using hd, by simpa using hb,
      by simpa using hc⟩

/-- Witness for C3: a unit whose discovery step raises closes its audit
`error` with the message as notes, and a two-unit batch containing it still
processes and reports both units. -/
theorem C3_witness :
    (processState envErr).2.2.status = "error" ∧
    (processState envErr).2.2.notes = "boom" ∧
    (runFullPipeline [envErr, envMath]).1.states_processed = 2 ∧
    (processState envMath).2.2.status = "complete" :=
  ⟨((C3_unit_failure_isolation envErr).2.2.1 "boom" (initCounts, []) rfl).1,
   ((C3_unit_failure_isolation envErr).2.2.1 "boom" (initCounts, []) rfl).2.1,
   ((C3_unit_failure_isolation envErr).2.2.2 [envErr, envMath]).1,
   by
    rw [((C3_unit_failure_isolation envMath).2.1 (okUnitState envMath) rfl).1]
    rfl⟩

theorem recordInsert_inv {st : UnitState} {obj : Objective}
    (h : UnitInv st) (hv : (validateObjective obj).1 = true) :
    UnitInv (recordInsert st obj) := by
  obtain ⟨h1, h2⟩ := h
  unfold UnitInv recordInsert
  refine ⟨?_, ?_⟩
  · by_cases hi : obj.is_inferred = true <;>
      simp [hi, List.length_append] <;> omega
  · intro o ho
    simp only [List.mem_append, List.mem_singleton] at ho
    rcases ho with ho | rfl
    · exact h2 o ho
    · exact hv

theorem insertLoop_inv (env : UnitEnv) (test_id : Nat) :
    ∀ (objs : List Objective) (st st' : UnitState),
      insertObjectivesLoop env test_id objs st = .ok st' →
      UnitInv st → UnitInv st' := by
  intro objs
  induction objs with
  | nil =>
      intro st st' h hinv
      unfold insertObjectivesLoop at h
      cases h
      exact hinv
  | cons obj rest ih =>
      intro st st' h hinv
      unfold insertObjectivesLoop at h
      split_ifs at h with hv
      · split at h
        · cases h
        · exact ih _ _ h (recordInsert_inv hinv hv)
      · exact ih _ _ h hinv

theorem processLoop_inv (env : UnitEnv) :
    ∀ (tests : List SampleTest) (st st' : UnitState),
      processTestsLoop env tests st = .ok st' → UnitInv st → UnitInv st' := by
  intro tests
  induction tests with
  | nil =>
      intro st st' h hinv
      unfold processTestsLoop at h
      cases h
      exact hinv
  | cons t rest ih =>
      intro st st' h hinv
      unfold processTestsLoop at h
      split at h
      · cases h
      · split at h
        · cases h
        · rename_i st2 hloop
          refine ih _ _ h (insertLoop_inv env _ _ _ _ hloop ?_)
          exact ⟨hinv.1, hinv.2⟩

theorem runUnitBody_inv (env : UnitEnv) (st : UnitState)
    (h : runUnitBody env = .ok st) : UnitInv st := by
  unfold runUnitBody at h
  split at h
  · cases h
  · exact processLoop_inv env _ _ _ h
      ⟨rfl, fun o ho => absurd ho (List.not_mem_nil o)⟩

/-- C10: when a unit's body completes without an unhandled exception, the
audit counters satisfy `objectives_found + objectives_inferred` equal to the
number of objectives that passed the validation gate and were persisted, and
every persisted objective passed the gate. -/
theorem C10_audit_counts_invariant (env : UnitEnv) (st : UnitState)
    (h : runUnitBody env = .ok st) :
    (processState env).1.objectives_found
        + (processState env).1.objectives_inferred
      = (processState env).2.1.length ∧
    ∀ o ∈ (processState env).2.1, (validateObjective o).1 = true := by
  have hinv := runUnitBody_inv env st h
  unfold processState
  rw [h]
  exact hinv

/-- Witness for C10 at a successful one-test Mathematics unit. -/
theorem C10_witness :
    runUnitBody envMath = .ok (okUnitState envMath) ∧
    (processState envMath).1.objectives_found
        + (processState envMath).1.objectives_inferred
      = (processState envMath).2.1.length :=
  ⟨rfl, (C10_audit_counts_invariant envMath (okUnitState envMath) rfl).1⟩

end TeachCert
